import Mathlib

set_option maxRecDepth 100000

/-!
Verification development for the rpki-mcp gateway (src/src/main.rs).

The Rust source is shallowly embedded below.  JSON documents are modelled by
the inductive `Json`; JSON numbers are modelled by their exact rational value
(the integral-versus-decimal surface form of a numeric literal is not
distinguished).  Rust `f32`/`f64` values are modelled as exact rationals
together with infinities (`FloatVal`), with IEEE-754 round-to-nearest-even
performed by `roundFloat`; serde_json parses a JSON number to `f64` and a
Rust `as f32` cast rounds again, which is modelled by `jsonNumToF32`.
Dynamic error-detail strings coming from external libraries (reqwest, serde,
std::io, the rpki crate) are either universally quantified parameters or
fixed placeholder strings, as noted on each definition; no claim inspects
those details.  All rational computation is phrased through `mkRat` and
integer arithmetic so that every definition evaluates by rewriting.
-/

/-- JSON values.  Objects are association lists in serialization order;
field lookup takes the first binding with the given key. -/
inductive Json where
  | null : Json
  | bool (b : Bool) : Json
  | num (q : ℚ) : Json
  | str (s : String) : Json
  | arr (elems : List Json) : Json
  | obj (fields : List (String × Json)) : Json

/-- Look up a field of a JSON object (first binding wins); `none` when the
value is not an object or lacks the key.  Models serde looking up a struct
field by name. -/
def Json.getField : Json → String → Option Json
  | .obj fields, key => go fields key
  | _, _ => none
where
  go : List (String × Json) → String → Option Json
  | [], _ => none
  | (k, v) :: rest, key => if k = key then some v else go rest key

/-- Look up a string field: `some` exactly when the key is present with a
string value.  Models serde deserializing a `String` struct field. -/
def Json.getStr (j : Json) (k : String) : Option String :=
  match j.getField k with
  | some (.str s) => some s
  | _ => none

/-- Look up a numeric field: `some` exactly when the key is present with a
numeric value. -/
def Json.getNum (j : Json) (k : String) : Option ℚ :=
  match j.getField k with
  | some (.num q) => some q
  | _ => none

/-- Look up an array field: `some` exactly when the key is present with an
array value. -/
def Json.getArr (j : Json) (k : String) : Option (List Json) :=
  match j.getField k with
  | some (.arr xs) => some xs
  | _ => none

/-- The key list of a JSON object, in serialization order. -/
def Json.objKeys : Json → Option (List String)
  | .obj fields => some (fields.map Prod.fst)
  | _ => none

/-- Element-wise decoding of a JSON array, failing if any element fails.
Models serde deserialization of a `Vec`. -/
def mapOpt (f : α → Option β) : List α → Option (List β)
  | [] => some []
  | x :: xs => (f x).bind fun y => (mapOpt f xs).map fun ys => y :: ys

/-- A binary floating-point value: an exact rational, or an infinity.
(NaN never arises on the paths modelled here.) -/
inductive FloatVal where
  | finite (q : ℚ) : FloatVal
  | posInf : FloatVal
  | negInf : FloatVal
deriving DecidableEq

/-- `pow2 e` is the rational `2 ^ e` for an integer `e`. -/
def pow2 (e : Int) : ℚ :=
  if 0 ≤ e then mkRat ((2 ^ e.toNat : Nat) : Int) 1 else mkRat 1 (2 ^ (-e).toNat)

/-- `divPow2 q t` is `q / 2 ^ t`, computed on the normalized representation. -/
def divPow2 (q : ℚ) (t : Int) : ℚ :=
  if 0 ≤ t then mkRat q.num (q.den * 2 ^ t.toNat)
  else mkRat (q.num * ((2 ^ (-t).toNat : Nat) : Int)) q.den

/-- `mulPow2Int m t` is the rational `m * 2 ^ t` for integers `m`, `t`. -/
def mulPow2Int (m t : Int) : ℚ :=
  if 0 ≤ t then mkRat (m * ((2 ^ t.toNat : Nat) : Int)) 1
  else mkRat m (2 ^ (-t).toNat)

/-- Round a rational to the nearest integer, ties to even, phrased on the
numerator and denominator. -/
def roundNearestEven (q : ℚ) : Int :=
  let n := Int.fdiv q.num q.den
  let rem := q.num - n * (q.den : Int)
  if 2 * rem < (q.den : Int) then n
  else if (q.den : Int) < 2 * rem then n + 1
  else if n % 2 = 0 then n else n + 1

/-- Ascending search for the largest `e` with `2 ^ e ≤ q`, starting at `e`
(used for `1 ≤ q`); `fuel` bounds the search, which is ample for every
exponent reachable on the modelled formats. -/
def expSearchUp (q : ℚ) : Nat → Int → Int
  | 0, e => e
  | fuel + 1, e => if pow2 (e + 1) ≤ q then expSearchUp q fuel (e + 1) else e

/-- Descending search for the largest `e` with `2 ^ e ≤ q`, starting at `e`
(used for `q < 1`). -/
def expSearchDown (q : ℚ) : Nat → Int → Int
  | 0, e => e
  | fuel + 1, e => if pow2 e ≤ q then e else expSearchDown q fuel (e - 1)

/-- `floorLog2Pos q` is the floor of the base-2 logarithm of a positive
rational (saturating harmlessly outside the exponent range of the modelled
formats). -/
def floorLog2Pos (q : ℚ) : Int :=
  if 1 ≤ q then expSearchUp q 1100 0 else expSearchDown q 1100 (-1)

/-- Round a positive rational to an IEEE-754 binary value with `prec`
significand bits, minimum subnormal exponent `eminSub` and maximum exponent
`emax` (round to nearest, ties to even; overflow to infinity). -/
def roundFloatPos (prec : Nat) (eminSub emax : Int) (q : ℚ) : FloatVal :=
  let e := floorLog2Pos q
  let t := max (e - ((prec : Int) - 1)) eminSub
  let m := roundNearestEven (divPow2 q t)
  let r := mulPow2Int m t
  if pow2 (emax + 1) ≤ r then .posInf else .finite r

/-- Round any rational to an IEEE-754 binary value with the given format
parameters. -/
def roundFloat (prec : Nat) (eminSub emax : Int) (q : ℚ) : FloatVal :=
  if q = 0 then .finite 0
  else if q < 0 then
    match roundFloatPos prec eminSub emax (-q) with
    | .finite r => .finite (-r)
    | .posInf => .negInf
    | .negInf => .posInf
  else roundFloatPos prec eminSub emax q

/-- Rounding to IEEE-754 binary64 (`f64`): 53 significand bits, subnormal
ulp exponent -1074, maximum exponent 1023. -/
def roundF64 (q : ℚ) : FloatVal := roundFloat 53 (-1074) 1023 q

/-- The Rust `as f32` cast of an `f64` value: re-round a finite value to
binary32 (24 significand bits, subnormal ulp exponent -149, maximum
exponent 127); infinities are preserved. -/
def f64ToF32 : FloatVal → FloatVal
  | .finite q => roundFloat 24 (-149) 127 q
  | .posInf => .posInf
  | .negInf => .negInf

/-- serde_json deserialization of an `f32` field from a JSON number: the
number is parsed as `f64` and then cast to `f32`. -/
def jsonNumToF32 (q : ℚ) : FloatVal := f64ToF32 (roundF64 q)

/-- Serialization of a float field by serde_json: a finite value is emitted
as a number whose value is the exact rational of the float (the emitted
shortest-round-trip decimal denotes exactly this binary value); non-finite
values are emitted as `null`. -/
def floatValToJson : FloatVal → Json
  | .finite q => .num q
  | .posInf => .null
  | .negInf => .null

example : jsonNumToF32 (mkRat 1 10) = .finite (mkRat 13421773 134217728) := by decide
example : jsonNumToF32 (mkRat 3 2) = .finite (mkRat 3 2) := by decide
example : jsonNumToF32 7 = .finite 7 := by decide

/-- The MCP error value produced by the gateway (rmcp `ErrorData` as used in
main.rs: an integer `code` and a `message`; the `data` field is always
`None` and is omitted). -/
structure McpError where
  code : Int
  message : String
deriving DecidableEq

/-- The payload of the `Success` variant of `StatusResponse` (main.rs lines
85-95).  `serial` is deserialized as `u16`, the `lastUpdate...` fields are
renamed to camelCase on the wire, and `last_update_duration` is an `f32`. -/
structure StatusSuccess where
  version : String
  serial : Nat
  now : String
  last_update_start : String
  last_update_done : String
  last_update_duration : FloatVal
deriving DecidableEq

/-- `StatusResponse` (main.rs lines 79-96): a serde `untagged` enum whose
variants are tried in declaration order, `Error` first, then `Success`. -/
inductive StatusResponse where
  | error (error : String) : StatusResponse
  | success (s : StatusSuccess) : StatusResponse
deriving DecidableEq

/-- Attempt to deserialize the `Error` variant shape: a JSON object carrying
a string field `error`; unknown fields are ignored (serde default). -/
def decodeStatusError (j : Json) : Option String := j.getStr "error"

/-- Whether a JSON number is a valid serde `u16`: an integral value in
`[0, 65535]`. -/
def isU16 (q : ℚ) : Bool := q.den = 1 && 0 ≤ q.num && q.num ≤ 65535

/-- Attempt to deserialize the `Success` variant shape: the six status
fields, with the wire names of the serde renames; unknown fields are
ignored (serde default). -/
def decodeStatusSuccess (j : Json) : Option StatusSuccess :=
  (j.getStr "version").bind fun v =>
  (j.getNum "serial").bind fun serial =>
  (j.getStr "now").bind fun now =>
  (j.getStr "lastUpdateStart").bind fun us =>
  (j.getStr "lastUpdateDone").bind fun ud =>
  (j.getNum "lastUpdateDuration").bind fun dur =>
  if isU16 serial then
    some ⟨v, serial.num.toNat, now, us, ud, jsonNumToF32 dur⟩
  else none

/-- Deserialization of the untagged `StatusResponse`: serde tries the
variants in declaration order, so the `Error` shape is attempted first and
the `Success` shape is the fallback; a body matching neither shape is a
decode failure (`none`). -/
def decodeStatusResponse (j : Json) : Option StatusResponse :=
  match decodeStatusError j with
  | some e => some (.error e)
  | none =>
    match decodeStatusSuccess j with
    | some s => some (.success s)
    | none => none

/-- Serialization of `StatusResponse` by serde_json `to_value` (untagged:
the variant content is emitted without a tag, with the serde rename
attributes applied). -/
def serializeStatusResponse : StatusResponse → Json
  | .error e => .obj [("error", .str e)]
  | .success s =>
    .obj [("version", .str s.version), ("serial", .num (s.serial : ℚ)),
      ("now", .str s.now), ("lastUpdateStart", .str s.last_update_start),
      ("lastUpdateDone", .str s.last_update_done),
      ("lastUpdateDuration", floatValToJson s.last_update_duration)]

/-- `Vrp` (main.rs lines 98-103): all three fields, including `max_length`,
are deserialized as strings; no serde rename, so the wire name of
`max_length` is `max_length`. -/
structure Vrp where
  asn : String
  prefixStr : String
  max_length : String

/-- serde deserialization of a `Vrp` object. -/
def decodeVrp (j : Json) : Option Vrp :=
  (j.getStr "asn").bind fun a =>
  (j.getStr "prefix").bind fun p =>
  (j.getStr "max_length").map fun m => ⟨a, p, m⟩

/-- serde serialization of a `Vrp`. -/
def serializeVrp (v : Vrp) : Json :=
  .obj [("asn", .str v.asn), ("prefix", .str v.prefixStr),
    ("max_length", .str v.max_length)]

/-- `VRPs` (main.rs lines 105-110): the three VRP lists; wire names are the
Rust snake_case field names. -/
structure VRPs where
  matched : List Vrp
  unmatched_as : List Vrp
  unmatched_length : List Vrp

/-- serde deserialization of a `VRPs` object. -/
def decodeVRPs (j : Json) : Option VRPs :=
  (j.getArr "matched").bind fun ms =>
  (j.getArr "unmatched_as").bind fun uas =>
  (j.getArr "unmatched_length").bind fun uls =>
  (mapOpt decodeVrp ms).bind fun m =>
  (mapOpt decodeVrp uas).bind fun ua =>
  (mapOpt decodeVrp uls).map fun ul => ⟨m, ua, ul⟩

/-- serde serialization of a `VRPs`. -/
def serializeVRPs (v : VRPs) : Json :=
  .obj [("matched", .arr (v.matched.map serializeVrp)),
    ("unmatched_as", .arr (v.unmatched_as.map serializeVrp)),
    ("unmatched_length", .arr (v.unmatched_length.map serializeVrp))]

/-- `Validity` (main.rs lines 112-118): `vrps` is renamed to `VRPs` on the
wire; `state` and `description` keep their names. -/
structure Validity where
  state : String
  description : String
  vrps : VRPs

/-- serde deserialization of a `Validity` object. -/
def decodeValidity (j : Json) : Option Validity :=
  (j.getStr "state").bind fun st =>
  (j.getStr "description").bind fun d =>
  (j.getField "VRPs").bind fun vs =>
  (decodeVRPs vs).map fun v => ⟨st, d, v⟩

/-- serde serialization of a `Validity`. -/
def serializeValidity (v : Validity) : Json :=
  .obj [("state", .str v.state), ("description", .str v.description),
    ("VRPs", serializeVRPs v.vrps)]

/-- `Route` (main.rs lines 120-124): wire names are the Rust snake_case
field names `origin_asn` and `prefix` (the latter is called `prefixStr`
here because `prefix` is reserved in Lean). -/
structure Route where
  origin_asn : String
  prefixStr : String

/-- serde deserialization of a `Route` object. -/
def decodeRoute (j : Json) : Option Route :=
  (j.getStr "origin_asn").bind fun o =>
  (j.getStr "prefix").map fun p => ⟨o, p⟩

/-- serde serialization of a `Route`. -/
def serializeRoute (r : Route) : Json :=
  .obj [("origin_asn", .str r.origin_asn), ("prefix", .str r.prefixStr)]

/-- `ValidatedRoute` (main.rs lines 126-130). -/
structure ValidatedRoute where
  route : Route
  validity : Validity

/-- serde deserialization of a `ValidatedRoute` object. -/
def decodeValidatedRoute (j : Json) : Option ValidatedRoute :=
  (j.getField "route").bind fun r =>
  (j.getField "validity").bind fun v =>
  (decodeRoute r).bind fun rr =>
  (decodeValidity v).map fun vv => ⟨rr, vv⟩

/-- serde serialization of a `ValidatedRoute`. -/
def serializeValidatedRoute (v : ValidatedRoute) : Json :=
  .obj [("route", serializeRoute v.route),
    ("validity", serializeValidity v.validity)]

/-- `ValidityResponse` (main.rs lines 132-137): top-level wire fields are
`validated_route` (no rename) and `generatedTime` (renamed from
`generated_time`). -/
structure ValidityResponse where
  validated_route : ValidatedRoute
  generated_time : String

/-- serde deserialization of a `ValidityResponse` object. -/
def decodeValidityResponse (j : Json) : Option ValidityResponse :=
  (j.getField "validated_route").bind fun vr =>
  (j.getStr "generatedTime").bind fun gt =>
  (decodeValidatedRoute vr).map fun v => ⟨v, gt⟩

/-- serde serialization of a `ValidityResponse`. -/
def serializeValidityResponse (v : ValidityResponse) : Json :=
  .obj [("validated_route", serializeValidatedRoute v.validated_route),
    ("generatedTime", .str v.generated_time)]

/-- Whether a JSON number is a valid serde `i64`: an integral value in
`[-2^63, 2^63)`. -/
def isI64 (q : ℚ) : Bool :=
  q.den = 1 && -(2 ^ 63 : Int) ≤ q.num && q.num < (2 ^ 63 : Int)

/-- `FetchedRoa` (main.rs lines 147-154): `max_length` is renamed to
`maxLength` on the wire and is an `i64`; `ta` keeps its name. -/
structure FetchedRoa where
  asn : String
  prefixStr : String
  max_length : Int
  ta : String

/-- serde deserialization of a `FetchedRoa` object. -/
def decodeFetchedRoa (j : Json) : Option FetchedRoa :=
  (j.getStr "asn").bind fun a =>
  (j.getStr "prefix").bind fun p =>
  (j.getNum "maxLength").bind fun m =>
  (j.getStr "ta").bind fun t =>
  if isI64 m then some ⟨a, p, m.num, t⟩ else none

/-- serde serialization of a `FetchedRoa`. -/
def serializeFetchedRoa (r : FetchedRoa) : Json :=
  .obj [("asn", .str r.asn), ("prefix", .str r.prefixStr),
    ("maxLength", .num (r.max_length : ℚ)), ("ta", .str r.ta)]

/-- `Metadata` (main.rs lines 156-161): `generated` is an `i64`;
`generated_time` is renamed to `generatedTime` on the wire. -/
structure Metadata where
  generated : Int
  generated_time : String

/-- serde deserialization of a `Metadata` object. -/
def decodeMetadata (j : Json) : Option Metadata :=
  (j.getNum "generated").bind fun g =>
  (j.getStr "generatedTime").bind fun t =>
  if isI64 g then some ⟨g.num, t⟩ else none

/-- serde serialization of a `Metadata`. -/
def serializeMetadata (m : Metadata) : Json :=
  .obj [("generated", .num (m.generated : ℚ)),
    ("generatedTime", .str m.generated_time)]

/-- `FetchedRoas` (main.rs lines 163-167). -/
structure FetchedRoas where
  metadata : Metadata
  roas : List FetchedRoa

/-- serde deserialization of a `FetchedRoas` object. -/
def decodeFetchedRoas (j : Json) : Option FetchedRoas :=
  (j.getField "metadata").bind fun m =>
  (j.getArr "roas").bind fun rs =>
  (decodeMetadata m).bind fun md =>
  (mapOpt decodeFetchedRoa rs).map fun roas => ⟨md, roas⟩

/-- serde serialization of a `FetchedRoas`. -/
def serializeFetchedRoas (f : FetchedRoas) : Json :=
  .obj [("metadata", serializeMetadata f.metadata),
    ("roas", .arr (f.roas.map serializeFetchedRoa))]

/-- Outcome of the single `reqwest::get` call issued by
`fetch_json_response` (main.rs line 226).  A transport failure carries the
optional HTTP status reported by `reqwest::Error::status` (always absent
for connect-level failures) and the error display text.  A response carries
the HTTP status, the body read as text (`none` models a body read failure),
and the parse of the body as JSON (`none` models a body that is not valid
JSON). -/
inductive FetchOutcome where
  | transportFail (status : Option Nat) (detail : String) : FetchOutcome
  | response (status : Nat) (textBody : Option String) (jsonBody : Option Json)
      : FetchOutcome

/-- Whether an HTTP status is a success status in the sense of
`StatusCode::is_success` (200..=299). -/
def is2xx (st : Nat) : Bool := 200 ≤ st && st ≤ 299

/-- The message of the `McpError` produced when a 2xx body fails to decode
into the expected typed shape (main.rs lines 24-38 applied to the
`res.json::<T>()` failure at line 242).  The serde detail appended by
reqwest is abstracted to a fixed placeholder; no claim inspects it. -/
def requestDecodeFailureMessage : String :=
  "Request failed: error decoding response body"

/-- `RPKITool::fetch_json_response` (main.rs lines 222-247), parameterized
by the expected result shape through its decoder and serializer:
a transport failure maps to code `status-if-reported else -1` (main.rs
lines 24-38); a non-2xx response maps to code = HTTP status with the body
text as message, with a placeholder when the body is unreadable (lines
228-240); a 2xx body is decoded into the typed shape (decode failure maps
to code -1, because `reqwest::Error::status` reports no status for decode
errors) and re-serialized to a generic JSON value (lines 242-246). -/
def fetch_json_response (decode : Json → Option α) (ser : α → Json)
    (outcome : FetchOutcome) : Except McpError Json :=
  match outcome with
  | .transportFail st detail =>
    .error ⟨match st with | some s => (s : Int) | none => -1,
      "Request failed: " ++ detail⟩
  | .response st textBody jsonBody =>
    if is2xx st = false then
      .error ⟨(st : Int), textBody.getD "Unknown error"⟩
    else
      match jsonBody.bind decode with
      | none => .error ⟨-1, requestDecodeFailureMessage⟩
      | some v => .ok (ser v)

/-- The Unicode code points with the White_Space property, which is what
Rust `char::is_whitespace` (and hence `str::trim`) uses. -/
def isRustWhitespace (c : Char) : Bool :=
  c.val = 0x09 || c.val = 0x0A || c.val = 0x0B || c.val = 0x0C ||
  c.val = 0x0D || c.val = 0x20 || c.val = 0x85 || c.val = 0xA0 ||
  c.val = 0x1680 || (0x2000 ≤ c.val && c.val ≤ 0x200A) ||
  c.val = 0x2028 || c.val = 0x2029 || c.val = 0x202F || c.val = 0x205F ||
  c.val = 0x3000

/-- Rust `str::trim`, modelled on the character list: drop White_Space
characters from both ends. -/
def rustTrim (s : String) : String :=
  ⟨((s.data.dropWhile isRustWhitespace).reverse.dropWhile
      isRustWhitespace).reverse⟩

/-- Rust `str::starts_with` for a string pattern, modelled on the character
list. -/
def rustStartsWith (s pat : String) : Bool := pat.data.isPrefixOf s.data

/-- The `RPKITool` state (main.rs lines 180-183): the validated endpoint.
The `tool_router` field is MCP plumbing with no bearing on the claims and
is omitted. -/
structure RPKITool where
  endpoint : String

/-- `RPKITool::new` (main.rs lines 202-219): endpoint validation.  Fails
when the endpoint does not start with `http://` or `https://`; then fails
when the trimmed endpoint is empty; otherwise stores the endpoint
unchanged.  The check is purely syntactic: no network access occurs. -/
def RPKITool.new (endpoint : String) : Except String RPKITool :=
  if !(rustStartsWith endpoint "http://") && !(rustStartsWith endpoint "https://")
  then
    .error "Endpoint must start with http:// or https://"
  else if (rustTrim endpoint).data.isEmpty then
    .error "Endpoint cannot be empty"
  else
    .ok ⟨endpoint⟩

/-- `RPKITool::status` (main.rs lines 249-253): the generic helper at the
status URL with the `StatusResponse` shape.  The network is modelled as a
function from the request URL to the outcome of the single GET request. -/
def RPKITool.status (t : RPKITool) (net : String → FetchOutcome) :
    Except McpError Json :=
  fetch_json_response decodeStatusResponse serializeStatusResponse
    (net (t.endpoint ++ "/api/v1/status"))

/-- `RPKITool::validity` (main.rs lines 258-264): the generic helper at the
validity URL, with `asn` and `prefix` interpolated verbatim, with the
`ValidityResponse` shape. -/
def RPKITool.validity (t : RPKITool) (asn pfx : String)
    (net : String → FetchOutcome) : Except McpError Json :=
  fetch_json_response decodeValidityResponse serializeValidityResponse
    (net (t.endpoint ++ "/api/v1/validity/" ++ asn ++ "/" ++ pfx))

/-- `RPKITool::roas` (main.rs lines 269-275): the generic helper at the
ROA-set URL, with `asn` interpolated verbatim, with the `FetchedRoas`
shape. -/
def RPKITool.roas (t : RPKITool) (asn : String)
    (net : String → FetchOutcome) : Except McpError Json :=
  fetch_json_response decodeFetchedRoas serializeFetchedRoas
    (net (t.endpoint ++ "/json?select-asn=" ++ asn))

/-- The content of a decoded ROA object as exposed by the external `rpki`
crate (`RoaContent`): the origin AS number and the declared IPv4/IPv6
prefixes, each a pair of address value and prefix length. -/
structure RoaContent where
  asId : Nat
  v4Addrs : List (Nat × Nat)
  v6Addrs : List (Nat × Nat)
deriving DecidableEq

/-- Modelled from the spec: the textual rendering of the origin AS number
by the external rpki crate (`roa_content.as_id().to_string()` at main.rs
line 289), whose output the spec documents as strings like `AS65000`. -/
def asnToString (n : Nat) : String := "AS" ++ toString n

/-- Modelled from the spec: the textual rendering of an IPv4 prefix in its
standard address/length form (`addr.prefix().to_v4().to_string()` at
main.rs line 293, rendered by the external rpki crate), e.g.
`192.0.2.0/24`. -/
def ipv4PrefixToString (p : Nat × Nat) : String :=
  toString (p.1 / 2 ^ 24 % 256) ++ "." ++ toString (p.1 / 2 ^ 16 % 256) ++
    "." ++ toString (p.1 / 2 ^ 8 % 256) ++ "." ++ toString (p.1 % 256) ++
    "/" ++ toString p.2

/-- Modelled from the spec: the textual rendering of an IPv6 prefix in
address/length form (`addr.prefix().to_v6().to_string()` at main.rs line
299, rendered by the external rpki crate).  The claims never inspect a
rendered IPv6 prefix, so the RFC 5952 zero-compression of the external
renderer is simplified to plain colon-separated hexadecimal groups. -/
def ipv6PrefixToString (p : Nat × Nat) : String :=
  String.intercalate ":"
    ((List.range 8).map fun i =>
      Nat.toDigits 16 (p.1 / 2 ^ (16 * (7 - i)) % 65536) |>.asString) ++
    "/" ++ toString p.2

/-- `ParsedRoa` (main.rs lines 185-190): the result of the local binary
decode. -/
structure ParsedRoa where
  asn : String
  v4_prefix : List String
  v6_prefix : List String
deriving DecidableEq

/-- The extraction performed by `RPKITool::parse_roa_file` on a
successfully decoded ROA (main.rs lines 288-306). -/
def roaToParsed (c : RoaContent) : ParsedRoa :=
  ⟨asnToString c.asId, c.v4Addrs.map ipv4PrefixToString,
    c.v6Addrs.map ipv6PrefixToString⟩

/-- serde serialization of a `ParsedRoa` (no serde renames, so the wire
names are the Rust field names). -/
def serializeParsedRoa (p : ParsedRoa) : Json :=
  .obj [("asn", .str p.asn), ("v4_prefix", .arr (p.v4_prefix.map .str)),
    ("v6_prefix", .arr (p.v6_prefix.map .str))]

/-- `RPKITool::parse_roa_file` (main.rs lines 280-311), parameterized by
the two external collaborators: `decode` is `Roa::decode` of the external
rpki crate, taking the strictness flag and the file bytes (the source
invokes it with `false`, i.e. lenient mode, at line 286); `readResult` is
the outcome of `fs::read` (`Except.error` carries the io error display
text).  A read failure maps to code -1 with the `Failed to read file`
message (main.rs lines 53-64); a decode failure maps to code -1 with the
`Failed to decode file` message (lines 66-77); on success the decoded
content is transformed into a `ParsedRoa`. -/
def RPKITool.parse_roa_file
    (decode : Bool → List Nat → Except String RoaContent)
    (readResult : Except String (List Nat)) : Except McpError ParsedRoa :=
  match readResult with
  | .error e => .error ⟨-1, "Failed to read file: " ++ e⟩
  | .ok bytes =>
    match decode false bytes with
    | .error e => .error ⟨-1, "Failed to decode file: " ++ e⟩
    | .ok c => .ok (roaToParsed c)

/-- A string starting with `http://` or `https://` begins with the
character `h`, which is not whitespace, so its trim is nonempty. -/
theorem rustTrim_ne_nil_of_scheme (s : String)
    (h : rustStartsWith s "http://" = true ∨
      rustStartsWith s "https://" = true) :
    (rustTrim s).data ≠ [] := by
  have hh : ∃ rest, s.data = 'h' :: rest := by
    rcases h with h | h <;>
    · unfold rustStartsWith at h
      cases hd : s.data with
      | nil => rw [hd] at h; simp [List.isPrefixOf] at h
      | cons c cs =>
        rw [hd] at h
        simp [List.isPrefixOf] at h
        exact ⟨cs, by rw [← h.1]⟩
  obtain ⟨rest, hs⟩ := hh
  unfold rustTrim
  rw [hs]
  have hws : isRustWhitespace 'h' = false := by decide
  have h1 : List.dropWhile isRustWhitespace ('h' :: rest) = 'h' :: rest := by
    simp [List.dropWhile_cons, hws]
  rw [h1]
  intro hcon
  rw [List.reverse_eq_nil_iff, List.dropWhile_eq_nil_iff] at hcon
  have : isRustWhitespace 'h' = true := by
    refine hcon 'h' ?_
    rw [List.mem_reverse]
    exact List.mem_cons_self 'h' rest
  rw [this] at hws
  cases hws

/-- C5: endpoint validation fails for every string that is empty,
whitespace-only, or lacks an `http://` or `https://` scheme, and succeeds,
returning the endpoint unchanged, for every string carrying one of the two
schemes.  The validation is the pure function `RPKITool.new`; no network
effect exists in it by construction. -/
theorem c5_endpoint_validation (s : String) :
    ((s.data = [] ∨ (rustTrim s).data = [] ∨
        (rustStartsWith s "http://" = false ∧
          rustStartsWith s "https://" = false)) →
      (RPKITool.new s).isOk = false) ∧
    ((rustStartsWith s "http://" = true ∨
        rustStartsWith s "https://" = true) →
      RPKITool.new s = .ok ⟨s⟩) := by
  constructor
  · intro h
    unfold RPKITool.new
    by_cases h1 :
      (!rustStartsWith s "http://" && !rustStartsWith s "https://") = true
    · rw [if_pos h1]
      rfl
    · have hsw : rustStartsWith s "http://" = true ∨
          rustStartsWith s "https://" = true := by
        have h2 := Bool.not_eq_true _ |>.mp h1
        rw [Bool.and_eq_false_iff] at h2
        rcases h2 with h2 | h2 <;> simp only [Bool.not_eq_false'] at h2
        · exact Or.inl h2
        · exact Or.inr h2
      rcases h with hempty | htrim | hsw2
      · exfalso
        rcases hsw with h' | h' <;>
        · unfold rustStartsWith at h'
          rw [hempty] at h'
          simp [List.isPrefixOf] at h'
      · rw [if_neg h1, if_pos (by rw [htrim]; rfl)]
        rfl
      · exfalso
        rcases hsw with h' | h'
        · rw [hsw2.1] at h'; cases h'
        · rw [hsw2.2] at h'; cases h'
  · intro h
    unfold RPKITool.new
    have h1 : (!rustStartsWith s "http://" && !rustStartsWith s "https://")
        = false := by
      rcases h with h | h <;> simp [h]
    have h2 : (rustTrim s).data.isEmpty = false := by
      have := rustTrim_ne_nil_of_scheme s h
      cases hd : (rustTrim s).data with
      | nil => exact absurd hd this
      | cons c cs => rfl
    rw [if_neg (by rw [h1]; exact Bool.false_ne_true), if_neg (by
      rw [h2]; exact Bool.false_ne_true)]

/-- C5 witness: the theorem applied to an empty string, a whitespace-only
string, a string without a scheme, and a well-formed https string. -/
theorem c5_endpoint_validation_witness :
    (RPKITool.new "").isOk = false ∧
    (RPKITool.new "   ").isOk = false ∧
    (RPKITool.new "ftp://example.org").isOk = false ∧
    RPKITool.new "https://rpki.example" = .ok ⟨"https://rpki.example"⟩ :=
  ⟨(c5_endpoint_validation "").1 (Or.inl rfl),
   (c5_endpoint_validation "   ").1 (Or.inr (Or.inl (by decide))),
   (c5_endpoint_validation "ftp://example.org").1
     (Or.inr (Or.inr ⟨by decide, by decide⟩)),
   (c5_endpoint_validation "https://rpki.example").2 (Or.inr (by decide))⟩

/-- C8: the three network operations are the one generic fetch-and-decode
helper instantiated at three result shapes and three URL templates built by
verbatim string concatenation of the endpoint and the caller-supplied
identifiers; since all three are literally the same helper, the error
mapping is identical at the three call sites. -/
theorem c8_shared_helper (t : RPKITool) (asn pfx : String)
    (net : String → FetchOutcome) :
    t.status net =
      fetch_json_response decodeStatusResponse serializeStatusResponse
        (net (t.endpoint ++ "/api/v1/status")) ∧
    t.validity asn pfx net =
      fetch_json_response decodeValidityResponse serializeValidityResponse
        (net (t.endpoint ++ "/api/v1/validity/" ++ asn ++ "/" ++ pfx)) ∧
    t.roas asn net =
      fetch_json_response decodeFetchedRoas serializeFetchedRoas
        (net (t.endpoint ++ "/json?select-asn=" ++ asn)) :=
  ⟨rfl, rfl, rfl⟩

/-- C4: an upstream response with a non-2xx HTTP status makes the network
operation return an error whose code is that status and whose message is
the body read as text, with a placeholder when the body is unreadable;
stated on `validity`, which the claim instantiates at a 404 with body
`not found`. -/
theorem c4_non2xx_upstream_error (t : RPKITool) (asn pfx : String)
    (net : String → FetchOutcome) (st : Nat) (textBody : Option String)
    (jsonBody : Option Json)
    (hnet : net (t.endpoint ++ "/api/v1/validity/" ++ asn ++ "/" ++ pfx) =
      .response st textBody jsonBody)
    (hst : is2xx st = false) :
    t.validity asn pfx net =
      .error ⟨(st : Int), textBody.getD "Unknown error"⟩ := by
  unfold RPKITool.validity
  rw [hnet]
  unfold fetch_json_response
  dsimp only
  rw [hst]
  simp

/-- C4 witness: a 404 response with body `not found` makes `validity`
return the typed error with code 404 and message `not found`. -/
theorem c4_non2xx_upstream_error_witness :
    RPKITool.validity ⟨"https://rpki.example"⟩ "AS64512" "192.0.2.0/24"
      (fun _ => .response 404 (some "not found") none) =
      .error ⟨404, "not found"⟩ :=
  c4_non2xx_upstream_error ⟨"https://rpki.example"⟩ "AS64512" "192.0.2.0/24"
    _ 404 (some "not found") none rfl (by decide)

/-- C3: when the external decoder accepts the file bytes in lenient mode
and reports origin AS 65000, the single IPv4 prefix 192.0.2.0/24 (address
value 3221225984) and no IPv6 prefixes, `parse_roa_file` returns the
`ParsedRoa` with asn `AS65000`, the IPv4 prefix rendered as
`192.0.2.0/24`, and no IPv6 prefixes. -/
theorem c3_parse_roa_ok (decode : Bool → List Nat → Except String RoaContent)
    (bytes : List Nat)
    (h : decode false bytes = .ok ⟨65000, [(3221225984, 24)], []⟩) :
    RPKITool.parse_roa_file decode (.ok bytes) =
      .ok ⟨"AS65000", ["192.0.2.0/24"], []⟩ := by
  unfold RPKITool.parse_roa_file
  dsimp only
  rw [h]
  exact congrArg Except.ok (by decide)

/-- C3 witness: the theorem applied to a concrete decoder and byte list. -/
theorem c3_parse_roa_ok_witness :
    RPKITool.parse_roa_file
      (fun _ _ => .ok ⟨65000, [(3221225984, 24)], []⟩) (.ok [0]) =
      .ok ⟨"AS65000", ["192.0.2.0/24"], []⟩ :=
  c3_parse_roa_ok (fun _ _ => .ok ⟨65000, [(3221225984, 24)], []⟩) [0] rfl

/-- C7: `parse_roa_file` maps a file-read failure to the io error (code -1,
`Failed to read file` message), maps a failure of the lenient decode to the
decode error (code -1, `Failed to decode file` message) with no partial
result, and on success returns exactly the transform of the decoded
content; in every case the external decoder is invoked with the strictness
flag `false` (non-strict mode). -/
theorem c7_parse_roa_errors
    (decode : Bool → List Nat → Except String RoaContent)
    (readResult : Except String (List Nat)) :
    (∀ e, readResult = .error e →
      RPKITool.parse_roa_file decode readResult =
        .error ⟨-1, "Failed to read file: " ++ e⟩) ∧
    (∀ bytes e, readResult = .ok bytes → decode false bytes = .error e →
      RPKITool.parse_roa_file decode readResult =
        .error ⟨-1, "Failed to decode file: " ++ e⟩) ∧
    (∀ bytes c, readResult = .ok bytes → decode false bytes = .ok c →
      RPKITool.parse_roa_file decode readResult = .ok (roaToParsed c)) := by
  refine ⟨?_, ?_, ?_⟩
  · intro e he
    subst he
    rfl
  · intro bytes e hb hd
    subst hb
    unfold RPKITool.parse_roa_file
    dsimp only
    rw [hd]
  · intro bytes c hb hd
    subst hb
    unfold RPKITool.parse_roa_file
    dsimp only
    rw [hd]

/-- C7 witness: the theorem applied at a concrete failing read, a concrete
failing decode, and a concrete successful decode. -/
theorem c7_parse_roa_errors_witness :
    RPKITool.parse_roa_file (fun _ _ => .error "bad der") (.error "no such file") =
      .error ⟨-1, "Failed to read file: no such file"⟩ ∧
    RPKITool.parse_roa_file (fun _ _ => .error "bad der") (.ok [1, 2]) =
      .error ⟨-1, "Failed to decode file: bad der"⟩ ∧
    RPKITool.parse_roa_file (fun _ _ => .ok ⟨65000, [], []⟩) (.ok [1, 2]) =
      .ok ⟨"AS65000", [], []⟩ :=
  ⟨(c7_parse_roa_errors (fun _ _ => .error "bad der") (.error "no such file")).1
      "no such file" rfl,
   (c7_parse_roa_errors (fun _ _ => .error "bad der") (.ok [1, 2])).2.1
      [1, 2] "bad der" rfl rfl,
   (c7_parse_roa_errors (fun _ _ => .ok ⟨65000, [], []⟩) (.ok [1, 2])).2.2
      [1, 2] ⟨65000, [], []⟩ rfl rfl⟩

/-- A status body that matches the Success shape (all six fields present
with the right types) and additionally carries an `error` string field,
hence matches both untagged shapes at once. -/
def statusBothShapesBody : Json :=
  .obj [("error", .str "fatal"), ("version", .str "0.9.0"),
    ("serial", .num 42), ("now", .str "2026-01-01T00:00:00Z"),
    ("lastUpdateStart", .str "t1"), ("lastUpdateDone", .str "t2"),
    ("lastUpdateDuration", .num 3)]

/-- A status body matching only the Success shape. -/
def statusSuccessBody : Json :=
  .obj [("version", .str "0.9.0"), ("serial", .num 42),
    ("now", .str "2026-01-01T00:00:00Z"), ("lastUpdateStart", .str "t1"),
    ("lastUpdateDone", .str "t2"), ("lastUpdateDuration", .num 3)]

/-- C1 counterexample: a body that structurally matches the Success shape
(`decodeStatusSuccess` succeeds on it) but on which the decoder produces
the Error variant, because the untagged variants are declared Error-first;
this refutes the claimed Success-first resolution order. -/
theorem c1_success_shape_resolves_to_error_cex :
    (decodeStatusSuccess statusBothShapesBody).isSome = true ∧
    decodeStatusResponse statusBothShapesBody = some (.error "fatal") :=
  ⟨rfl, rfl⟩

/-- C1 (amended): the untagged decoder attempts the Error shape first and
falls back to the Success shape; a body matching the Success shape and not
the Error shape produces the Success variant; a body matching neither shape
is a decode failure, which the 2xx path maps to a typed decode error and
never to an Error result. -/
theorem c1_untagged_error_first (j : Json) :
    (∀ e, decodeStatusError j = some e →
      decodeStatusResponse j = some (.error e)) ∧
    (∀ s, decodeStatusError j = none → decodeStatusSuccess j = some s →
      decodeStatusResponse j = some (.success s)) ∧
    (decodeStatusError j = none → decodeStatusSuccess j = none →
      decodeStatusResponse j = none ∧
      ∀ st textBody, is2xx st = true →
        fetch_json_response decodeStatusResponse serializeStatusResponse
          (.response st textBody (some j)) =
          .error ⟨-1, requestDecodeFailureMessage⟩) := by
  refine ⟨?_, ?_, ?_⟩
  · intro e he
    unfold decodeStatusResponse
    rw [he]
  · intro s he hs
    unfold decodeStatusResponse
    rw [he, hs]
  · intro he hs
    have hd : decodeStatusResponse j = none := by
      unfold decodeStatusResponse
      rw [he, hs]
    refine ⟨hd, ?_⟩
    intro st textBody hst
    unfold fetch_json_response
    dsimp only
    rw [hst]
    simp [hd]

/-- C1 witness: the three branches of the amended theorem applied at a
pure Error body, a pure Success body, and a body matching neither shape. -/
theorem c1_untagged_error_first_witness :
    decodeStatusResponse (.obj [("error", .str "boom")]) =
      some (.error "boom") ∧
    decodeStatusResponse statusSuccessBody =
      some (.success
        ⟨"0.9.0", 42, "2026-01-01T00:00:00Z", "t1", "t2", .finite 3⟩) ∧
    fetch_json_response decodeStatusResponse serializeStatusResponse
      (.response 200 none (some (.obj []))) =
      .error ⟨-1, requestDecodeFailureMessage⟩ := by
  refine ⟨?_, ?_, ?_⟩
  · exact (c1_untagged_error_first _).1 "boom" rfl
  · exact (c1_untagged_error_first _).2.1 _ rfl (by decide)
  · exact ((c1_untagged_error_first (.obj [])).2.2 rfl rfl).2 200 none rfl

/-- A complete, correctly shaped validity body carrying one extra unknown
field at top level; serde ignores unknown fields by default, so this body
decodes successfully. -/
def validityBodyWithExtra : Json :=
  .obj [("unknownExtraField", .num 1),
    ("validated_route", .obj [
      ("route", .obj [("origin_asn", .str "AS65000"),
        ("prefix", .str "192.0.2.0/24")]),
      ("validity", .obj [("state", .str "valid"),
        ("description", .str "ok"),
        ("VRPs", .obj [
          ("matched", .arr [.obj [("asn", .str "AS65000"),
            ("prefix", .str "192.0.2.0/24"), ("max_length", .str "24")]]),
          ("unmatched_as", .arr []),
          ("unmatched_length", .arr [])])])]),
    ("generatedTime", .str "2026-01-01T00:00:00Z")]

/-- C9 counterexample: a 2xx body with an extra unknown field decodes
successfully and the operation returns a success result, refuting the
claim that bodies with extra fields are decode failures. -/
theorem c9_extra_fields_do_not_fail_cex :
    decodeValidityResponse validityBodyWithExtra =
      some ⟨⟨⟨"AS65000", "192.0.2.0/24"⟩,
        ⟨"valid", "ok", ⟨[⟨"AS65000", "192.0.2.0/24", "24"⟩], [], []⟩⟩⟩,
        "2026-01-01T00:00:00Z"⟩ ∧
    (fetch_json_response decodeValidityResponse serializeValidityResponse
      (.response 200 none (some validityBodyWithExtra))).isOk = true :=
  ⟨rfl, rfl⟩

/-- C9 (amended): a 2xx response whose body fails to decode into the
expected typed shape (missing or mismatched fields; extra fields are
ignored and never cause failure) makes the operation return a decode error
with the sentinel code -1 — reqwest attaches no HTTP status to decode
failures — and never a partial or structurally wrong result; stated for
the shared helper, hence for all three operations at once. -/
theorem c9_decode_failure_sentinel {α : Type} (decode : Json → Option α)
    (ser : α → Json) (st : Nat) (textBody : Option String)
    (jsonBody : Option Json) (hst : is2xx st = true)
    (hdec : jsonBody.bind decode = none) :
    fetch_json_response decode ser (.response st textBody jsonBody) =
      .error ⟨-1, requestDecodeFailureMessage⟩ := by
  unfold fetch_json_response
  dsimp only
  rw [hst]
  simp [hdec]

/-- C9 witness: the amended theorem applied at the validity shape and a
2xx body missing every expected field. -/
theorem c9_decode_failure_sentinel_witness :
    fetch_json_response decodeValidityResponse serializeValidityResponse
      (.response 200 (some "ignored") (some (.obj []))) =
      .error ⟨-1, requestDecodeFailureMessage⟩ :=
  c9_decode_failure_sentinel decodeValidityResponse
    serializeValidityResponse 200 (some "ignored") (some (.obj [])) rfl rfl

/-- If element-wise decoding of a list succeeds, it succeeded on every
element. -/
theorem mapOpt_isSome_of_mem {α β : Type} {f : α → Option β} :
    ∀ {l : List α} {ys : List β}, mapOpt f l = some ys →
      ∀ {x : α}, x ∈ l → (f x).isSome = true := by
  intro l
  induction l with
  | nil =>
    intro ys h x hx
    cases hx
  | cons a as ih =>
    intro ys h x hx
    unfold mapOpt at h
    rw [Option.bind_eq_some] at h
    obtain ⟨y, hy, h⟩ := h
    rw [Option.map_eq_some'] at h
    obtain ⟨zs, hzs, _⟩ := h
    cases hx with
    | head => rw [hy]; rfl
    | tail _ hmem => exact ih hzs hmem

/-- A JSON value accepted by `decodeVrp` carries a string `max_length`
field. -/
theorem decodeVrp_max_length_string (e : Json)
    (h : (decodeVrp e).isSome = true) :
    ∃ s, e.getStr "max_length" = some s := by
  rw [Option.isSome_iff_exists] at h
  obtain ⟨w, hw⟩ := h
  unfold decodeVrp at hw
  rw [Option.bind_eq_some] at hw
  obtain ⟨a, _, hw⟩ := hw
  rw [Option.bind_eq_some] at hw
  obtain ⟨p, _, hw⟩ := hw
  rw [Option.map_eq_some'] at hw
  obtain ⟨m, hm, _⟩ := hw
  exact ⟨m, hm⟩

/-- The JSON elements at the three VRP-list positions of a validity body
(the arrays under validated_route, validity, VRPs). -/
def vrpEntries (j : Json) : List Json :=
  match j.getField "validated_route" with
  | some vr =>
    match vr.getField "validity" with
    | some va =>
      match va.getField "VRPs" with
      | some vs =>
        (vs.getArr "matched").getD [] ++ (vs.getArr "unmatched_as").getD []
          ++ (vs.getArr "unmatched_length").getD []
      | none => []
    | none => []
  | none => []

/-- A validity body that decodes successfully has a string `max_length` on
every element of its three VRP lists. -/
theorem decodeValidityResponse_max_length_string (j : Json)
    (v : ValidityResponse) (h : decodeValidityResponse j = some v) :
    ∀ e ∈ vrpEntries j, ∃ s, e.getStr "max_length" = some s := by
  unfold decodeValidityResponse at h
  rw [Option.bind_eq_some] at h
  obtain ⟨vr, hvr, h⟩ := h
  rw [Option.bind_eq_some] at h
  obtain ⟨gt, hgt, h⟩ := h
  rw [Option.map_eq_some'] at h
  obtain ⟨vvr, hvvr, _⟩ := h
  unfold decodeValidatedRoute at hvvr
  rw [Option.bind_eq_some] at hvvr
  obtain ⟨r, hr, hvvr⟩ := hvvr
  rw [Option.bind_eq_some] at hvvr
  obtain ⟨va, hva, hvvr⟩ := hvvr
  rw [Option.bind_eq_some] at hvvr
  obtain ⟨rr, hrr, hvvr⟩ := hvvr
  rw [Option.map_eq_some'] at hvvr
  obtain ⟨vv, hvv, _⟩ := hvvr
  unfold decodeValidity at hvv
  rw [Option.bind_eq_some] at hvv
  obtain ⟨st2, hst2, hvv⟩ := hvv
  rw [Option.bind_eq_some] at hvv
  obtain ⟨d2, hd2, hvv⟩ := hvv
  rw [Option.bind_eq_some] at hvv
  obtain ⟨vs, hvs, hvv⟩ := hvv
  rw [Option.map_eq_some'] at hvv
  obtain ⟨w, hw, _⟩ := hvv
  unfold decodeVRPs at hw
  rw [Option.bind_eq_some] at hw
  obtain ⟨ms, hms, hw⟩ := hw
  rw [Option.bind_eq_some] at hw
  obtain ⟨uas, huas, hw⟩ := hw
  rw [Option.bind_eq_some] at hw
  obtain ⟨uls, huls, hw⟩ := hw
  rw [Option.bind_eq_some] at hw
  obtain ⟨m1, hm1, hw⟩ := hw
  rw [Option.bind_eq_some] at hw
  obtain ⟨u1, hu1, hw⟩ := hw
  rw [Option.map_eq_some'] at hw
  obtain ⟨u2, hu2, _⟩ := hw
  intro e he
  unfold vrpEntries at he
  rw [hvr] at he
  dsimp only at he
  rw [hva] at he
  dsimp only at he
  rw [hvs] at he
  dsimp only at he
  rw [hms, huas, huls] at he
  simp only [Option.getD_some, List.mem_append] at he
  rcases he with (he | he) | he
  · exact decodeVrp_max_length_string e (mapOpt_isSome_of_mem hm1 he)
  · exact decodeVrp_max_length_string e (mapOpt_isSome_of_mem hu1 he)
  · exact decodeVrp_max_length_string e (mapOpt_isSome_of_mem hu2 he)

/-- C10: `max_length` is deserialized as a string, so a 2xx validity body
in which some VRP entry carries `max_length` as a JSON number, or omits
it, fails to decode and `validity` returns the typed decode error instead
of a result. -/
theorem c10_max_length_string_only (t : RPKITool) (asn pfx : String)
    (net : String → FetchOutcome) (st : Nat) (textBody : Option String)
    (j : Json)
    (hnet : net (t.endpoint ++ "/api/v1/validity/" ++ asn ++ "/" ++ pfx) =
      .response st textBody (some j))
    (hst : is2xx st = true)
    (hbad : ∃ e ∈ vrpEntries j,
      (∃ q, e.getField "max_length" = some (.num q)) ∨
        e.getField "max_length" = none) :
    t.validity asn pfx net = .error ⟨-1, requestDecodeFailureMessage⟩ := by
  obtain ⟨e, he, hml⟩ := hbad
  have hmlnone : e.getStr "max_length" = none := by
    unfold Json.getStr
    rcases hml with ⟨q, hq⟩ | hq <;> rw [hq]
  have hdec : decodeValidityResponse j = none := by
    cases hd : decodeValidityResponse j with
    | none => rfl
    | some v =>
      obtain ⟨s, hs⟩ :=
        decodeValidityResponse_max_length_string j v hd e he
      rw [hmlnone] at hs
      cases hs
  unfold RPKITool.validity
  rw [hnet]
  unfold fetch_json_response
  dsimp only
  rw [hst]
  simp [hdec]

/-- A validity body whose single matched VRP entry carries `max_length` as
a JSON number. -/
def validityBodyNumericMaxLength : Json :=
  .obj [("validated_route", .obj [
      ("route", .obj [("origin_asn", .str "AS65000"),
        ("prefix", .str "192.0.2.0/24")]),
      ("validity", .obj [("state", .str "valid"),
        ("description", .str "ok"),
        ("VRPs", .obj [
          ("matched", .arr [.obj [("asn", .str "AS65000"),
            ("prefix", .str "192.0.2.0/24"), ("max_length", .num 24)]]),
          ("unmatched_as", .arr []),
          ("unmatched_length", .arr [])])])]),
    ("generatedTime", .str "2026-01-01T00:00:00Z")]

/-- C10 witness: the theorem applied at a concrete 2xx body whose matched
VRP entry carries a numeric `max_length`. -/
theorem c10_max_length_string_only_witness :
    RPKITool.validity ⟨"https://rpki.example"⟩ "AS65000" "192.0.2.0/24"
      (fun _ => .response 200 none (some validityBodyNumericMaxLength)) =
      .error ⟨-1, requestDecodeFailureMessage⟩ :=
  c10_max_length_string_only ⟨"https://rpki.example"⟩ "AS65000"
    "192.0.2.0/24" _ 200 none validityBodyNumericMaxLength rfl rfl
    ⟨.obj [("asn", .str "AS65000"), ("prefix", .str "192.0.2.0/24"),
      ("max_length", .num 24)],
      by exact List.Mem.head _, Or.inl ⟨24, rfl⟩⟩

/-- Decidable check that a JSON value is an object shaped like a serialized
VRP entry: exactly the keys asn, prefix, max_length, each a string. -/
def vrpEntryShape (e : Json) : Bool :=
  e.objKeys == some ["asn", "prefix", "max_length"] &&
  (e.getStr "asn").isSome && (e.getStr "prefix").isSome &&
  (e.getStr "max_length").isSome

/-- Decidable check that a JSON value is shaped like the validity payload
the gateway serializes: top-level keys validated_route and generatedTime;
validated_route holding route (with origin_asn, prefix) and validity (with
state, description, VRPs); VRPs holding the matched, unmatched_as and
unmatched_length entry lists. -/
def validityResultShape (j : Json) : Bool :=
  j.objKeys == some ["validated_route", "generatedTime"] &&
  (j.getStr "generatedTime").isSome &&
  (match j.getField "validated_route" with
   | some vr =>
     vr.objKeys == some ["route", "validity"] &&
     (match vr.getField "route" with
      | some r =>
        r.objKeys == some ["origin_asn", "prefix"] &&
        (r.getStr "origin_asn").isSome && (r.getStr "prefix").isSome
      | none => false) &&
     (match vr.getField "validity" with
      | some va =>
        va.objKeys == some ["state", "description", "VRPs"] &&
        (va.getStr "state").isSome && (va.getStr "description").isSome &&
        (match va.getField "VRPs" with
         | some vs =>
           vs.objKeys ==
             some ["matched", "unmatched_as", "unmatched_length"] &&
           (match vs.getArr "matched", vs.getArr "unmatched_as",
               vs.getArr "unmatched_length" with
            | some ms, some uas, some uls =>
              ms.all vrpEntryShape && uas.all vrpEntryShape &&
                uls.all vrpEntryShape
            | _, _, _ => false)
         | none => false)
      | none => false)
   | none => false)

/-- Every serialized validity response matches the shape check. -/
theorem serializeValidityResponse_shape (v : ValidityResponse) :
    validityResultShape (serializeValidityResponse v) = true := by
  unfold validityResultShape serializeValidityResponse
    serializeValidatedRoute serializeRoute serializeValidity serializeVRPs
  simp [Json.getField, Json.getField.go, Json.getStr, Json.objKeys,
    Json.getArr, List.all_map, vrpEntryShape, serializeVrp, Function.comp]

/-- A complete, correctly shaped validity body using exactly the wire
names the gateway deserializes. -/
def validityOkBody : Json :=
  .obj [("validated_route", .obj [
      ("route", .obj [("origin_asn", .str "AS65000"),
        ("prefix", .str "192.0.2.0/24")]),
      ("validity", .obj [("state", .str "valid"),
        ("description", .str "ok"),
        ("VRPs", .obj [
          ("matched", .arr [.obj [("asn", .str "AS65000"),
            ("prefix", .str "192.0.2.0/24"), ("max_length", .str "24")]]),
          ("unmatched_as", .arr []),
          ("unmatched_length", .arr [])])])]),
    ("generatedTime", .str "2026-01-01T00:00:00Z")]

/-- The payload the gateway returns for `validityOkBody`. -/
def validityOkPayload : Json :=
  .obj [("validated_route", .obj [
      ("route", .obj [("origin_asn", .str "AS65000"),
        ("prefix", .str "192.0.2.0/24")]),
      ("validity", .obj [("state", .str "valid"),
        ("description", .str "ok"),
        ("VRPs", .obj [
          ("matched", .arr [.obj [("asn", .str "AS65000"),
            ("prefix", .str "192.0.2.0/24"), ("max_length", .str "24")]]),
          ("unmatched_as", .arr []),
          ("unmatched_length", .arr [])])])]),
    ("generatedTime", .str "2026-01-01T00:00:00Z")]

/-- C2 counterexample: the validity payload of a successfully decoded 2xx
body has no top-level `route` or `validity` field (they sit under
`validated_route`), and the route object carries `origin_asn`, not
`originAsn`; this refutes the claimed top-level schema and camelCase
normalization. -/
theorem c2_top_level_schema_cex :
    RPKITool.validity ⟨"https://rpki.example"⟩ "AS65000" "192.0.2.0/24"
      (fun _ => .response 200 none (some validityOkBody)) =
      .ok validityOkPayload ∧
    validityOkPayload.getField "route" = none ∧
    validityOkPayload.getField "validity" = none ∧
    (validityOkPayload.getField "validated_route").isSome = true ∧
    ((validityOkPayload.getField "validated_route").bind
      (fun vr => vr.getField "route")).bind
      (fun r => r.getField "originAsn") = none ∧
    ((validityOkPayload.getField "validated_route").bind
      (fun vr => vr.getField "route")).bind
      (fun r => r.getField "origin_asn") = some (.str "AS65000") :=
  ⟨rfl, rfl, rfl, rfl, rfl, rfl⟩

/-- C2 (amended): every successfully decoded 2xx validity body yields the
re-serialization of the typed value, and that payload always matches the
schema the gateway actually serializes — validated_route holding route
(origin_asn, prefix) and validity (state, description, VRPs with matched,
unmatched_as, unmatched_length lists of asn, prefix, max_length entries) —
plus top-level generatedTime; the serde renames normalize only the
generatedTime and VRPs keys, the remaining keys stay snake_case. -/
theorem c2_validity_payload_shape (t : RPKITool) (asn pfx : String)
    (net : String → FetchOutcome) (st : Nat) (textBody : Option String)
    (j : Json) (v : ValidityResponse)
    (hnet : net (t.endpoint ++ "/api/v1/validity/" ++ asn ++ "/" ++ pfx) =
      .response st textBody (some j))
    (hst : is2xx st = true)
    (hdec : decodeValidityResponse j = some v) :
    t.validity asn pfx net = .ok (serializeValidityResponse v) ∧
    validityResultShape (serializeValidityResponse v) = true := by
  constructor
  · unfold RPKITool.validity
    rw [hnet]
    unfold fetch_json_response
    dsimp only
    rw [hst]
    simp [hdec]
  · exact serializeValidityResponse_shape v

/-- The typed value `validityOkBody` decodes to. -/
def validityOkValue : ValidityResponse :=
  ⟨⟨⟨"AS65000", "192.0.2.0/24"⟩,
    ⟨"valid", "ok", ⟨[⟨"AS65000", "192.0.2.0/24", "24"⟩], [], []⟩⟩⟩,
    "2026-01-01T00:00:00Z"⟩

/-- C2 witness: the amended theorem applied at the concrete body. -/
theorem c2_validity_payload_shape_witness :
    RPKITool.validity ⟨"https://rpki.example"⟩ "AS65000" "192.0.2.0/24"
      (fun _ => .response 200 none (some validityOkBody)) =
      .ok (serializeValidityResponse validityOkValue) ∧
    validityResultShape (serializeValidityResponse validityOkValue)
      = true :=
  c2_validity_payload_shape ⟨"https://rpki.example"⟩ "AS65000"
    "192.0.2.0/24" _ 200 none validityOkBody validityOkValue rfl rfl rfl

/-- A JSON number passing the u16 check is recovered exactly by casting its
numerator back to the rationals. -/
theorem isU16_toNat_cast (q : ℚ) (h : isU16 q = true) :
    ((q.num.toNat : Nat) : ℚ) = q := by
  unfold isU16 at h
  simp only [Bool.and_eq_true, decide_eq_true_eq] at h
  obtain ⟨⟨hden, hpos⟩, _⟩ := h
  have h1 : ((q.num.toNat : Nat) : Int) = q.num := Int.toNat_of_nonneg hpos
  have h2 : (q.num : ℚ) = q := by
    conv_rhs => rw [← Rat.num_div_den q]
    rw [hden]
    norm_num
  rw [← h2]
  exact_mod_cast h1

/-- C6 (amended): a 2xx body matching the Success shape and not the Error
shape makes `status` return the payload with version, serial, now,
lastUpdateStart and lastUpdateDone copied verbatim from the body, while
lastUpdateDuration is the body number parsed as `f64` and cast to `f32`
(so it is the nearest 32-bit float value, not the verbatim number). -/
theorem c6_status_success_fields (t : RPKITool)
    (net : String → FetchOutcome) (st : Nat) (textBody : Option String)
    (j : Json) (ver now us ud : String) (serial dur : ℚ)
    (hnet : net (t.endpoint ++ "/api/v1/status") =
      .response st textBody (some j))
    (hst : is2xx st = true)
    (herr : decodeStatusError j = none)
    (hver : j.getStr "version" = some ver)
    (hserial : j.getNum "serial" = some serial)
    (hu16 : isU16 serial = true)
    (hnow : j.getStr "now" = some now)
    (hus : j.getStr "lastUpdateStart" = some us)
    (hud : j.getStr "lastUpdateDone" = some ud)
    (hdur : j.getNum "lastUpdateDuration" = some dur) :
    t.status net = .ok (.obj [("version", .str ver),
      ("serial", .num serial), ("now", .str now),
      ("lastUpdateStart", .str us), ("lastUpdateDone", .str ud),
      ("lastUpdateDuration", floatValToJson (jsonNumToF32 dur))]) := by
  have hsucc : decodeStatusSuccess j =
      some ⟨ver, serial.num.toNat, now, us, ud, jsonNumToF32 dur⟩ := by
    unfold decodeStatusSuccess
    rw [hver, hserial, hnow, hus, hud, hdur]
    simp [hu16]
  have hresp : decodeStatusResponse j =
      some (.success ⟨ver, serial.num.toNat, now, us, ud,
        jsonNumToF32 dur⟩) := by
    unfold decodeStatusResponse
    rw [herr, hsucc]
  unfold RPKITool.status
  rw [hnet]
  unfold fetch_json_response
  dsimp only
  rw [hst]
  simp [hresp, serializeStatusResponse, isU16_toNat_cast serial hu16]

/-- A status body whose duration is the decimal one tenth, which no binary
float represents exactly. -/
def statusDurationBody : Json :=
  .obj [("version", .str "0.9.0"), ("serial", .num 42),
    ("now", .str "t0"), ("lastUpdateStart", .str "t1"),
    ("lastUpdateDone", .str "t2"),
    ("lastUpdateDuration", .num (mkRat 1 10))]

/-- C6 counterexample: on a Success-shaped 2xx body with
lastUpdateDuration one tenth, the returned payload carries the 32-bit
float rounding 13421773/134217728 of that number, not the number itself,
refuting the claim that no value is altered or rounded. -/
theorem c6_duration_rounded_cex :
    RPKITool.status ⟨"https://rpki.example"⟩
      (fun _ => .response 200 none (some statusDurationBody)) =
      .ok (.obj [("version", .str "0.9.0"), ("serial", .num 42),
        ("now", .str "t0"), ("lastUpdateStart", .str "t1"),
        ("lastUpdateDone", .str "t2"),
        ("lastUpdateDuration", .num (mkRat 13421773 134217728))]) ∧
    statusDurationBody.getField "lastUpdateDuration" =
      some (.num (mkRat 1 10)) ∧
    mkRat 13421773 134217728 ≠ mkRat 1 10 :=
  ⟨rfl, rfl, by decide⟩

/-- C6 witness: the amended theorem applied at a concrete Success body. -/
theorem c6_status_success_fields_witness :
    RPKITool.status ⟨"https://rpki.example"⟩
      (fun _ => .response 200 none (some statusSuccessBody)) =
      .ok (.obj [("version", .str "0.9.0"), ("serial", .num 42),
        ("now", .str "2026-01-01T00:00:00Z"), ("lastUpdateStart", .str "t1"),
        ("lastUpdateDone", .str "t2"),
        ("lastUpdateDuration", floatValToJson (jsonNumToF32 3))]) :=
  c6_status_success_fields ⟨"https://rpki.example"⟩ _ 200 none
    statusSuccessBody "0.9.0" "2026-01-01T00:00:00Z" "t1" "t2" 42 3
    rfl rfl rfl rfl rfl (by decide) rfl rfl rfl rfl
